import Mathlib

/-!
Verification of the weather-ingestion Lambda handler
(`lambda_functions/weather_ingestion/lambda_function.py`).

The handler is a single synchronous function: it initializes two AWS
clients, reads two environment variables, loops over four fixed cities,
fetches JSON from the OpenWeatherMap HTTP API, writes the raw payload to
S3 and a normalized row to DynamoDB, and aggregates per-city outcomes
into a `statusCode`/`body` response.

The embedding below models every external effect (client construction,
environment lookup, HTTP fetch, the two storage writes, and the system
clock) as a `Behavior` record of oracles, and the handler as a pure
function from a `Behavior` to a response together with a `Trace` of the
HTTP and storage calls it performed.  JSON numbers carry their exact
decimal literal (the string that `str` of the parsed value produces), so
`Decimal(str(x))` is modelled as validating and keeping that literal.
-/

namespace WeatherPipeline

/-- A JSON value as produced by `json.loads`.  A number carries its decimal
literal: the string form `str(x)` of the parsed value.  (IEEE-754
shortest-roundtrip printing is not modelled; numbers are exact.) -/
inductive Json where
  | null : Json
  | bool : Bool → Json
  | num : String → Json
  | str : String → Json
  | arr : List Json → Json
  | obj : List (String × Json) → Json

/-- First-match lookup in an association list modelling a Python dict
(keys are unique in dicts produced by `json.loads`). -/
def lookupKey : List (String × Json) → String → Option Json
  | [], _ => none
  | (k, v) :: rest, key => if k = key then some v else lookupKey rest key

/-- `d[key] = v` on a dict: replace in place when the key exists,
append otherwise (Python dicts preserve insertion order). -/
def setKey : List (String × Json) → String → Json → List (String × Json)
  | [], key, v => [(key, v)]
  | (k, w) :: rest, key, v =>
      if k = key then (key, v) :: rest else (k, w) :: setKey rest key v

/-- `d.get(key, default)`: total on dicts; on any non-dict receiver the
attribute access raises (`AttributeError`). -/
def Json.getD (j : Json) (key : String) (dflt : Json) : Except String Json :=
  match j with
  | .obj fields => .ok ((lookupKey fields key).getD dflt)
  | _ => .error "AttributeError: object has no attribute get"

/-- `d[key]` on a parsed JSON value: `KeyError` when the key is missing,
a type error when the receiver is not a dict. -/
def Json.idx (j : Json) (key : String) : Except String Json :=
  match j with
  | .obj fields =>
      match lookupKey fields key with
      | some v => .ok v
      | none => .error ("KeyError: " ++ key)
  | _ => .error "TypeError: value is not subscriptable by string"

/-- `xs[n]` on a parsed JSON value: `IndexError` when out of range,
a `KeyError`/type error when the receiver is not a list. -/
def Json.idxNat (j : Json) (n : Nat) : Except String Json :=
  match j with
  | .arr xs =>
      match xs.get? n with
      | some v => .ok v
      | none => .error "IndexError: list index out of range"
  | _ => .error "TypeError: value is not subscriptable by index"

/-- Python `str` of a parsed JSON value.  For containers the exact text is
irrelevant to this development (it is only ever fed to the decimal
validator, which rejects it); a stand-in tag is used. -/
def Json.pyStr : Json → String
  | .null => "None"
  | .bool true => "True"
  | .bool false => "False"
  | .num s => s
  | .str s => s
  | .arr _ => "[list]"
  | .obj _ => "[dict]"

/-- Consume a run of decimal digits, returning how many were consumed and
the remainder. -/
def takeDigits : List Char → Nat × List Char
  | c :: rest =>
      if c.isDigit then
        let (n, r) := takeDigits rest
        (n + 1, r)
      else (0, c :: rest)
  | [] => (0, [])

/-- An unsigned decimal literal: digits with at most one point and at
least one digit overall (`decimal.Decimal` syntax; exponent forms are not
exercised by any payload in this development and are omitted). -/
def decAfterSign (cs : List Char) : Bool :=
  let (n1, r1) := takeDigits cs
  match r1 with
  | [] => decide (0 < n1)
  | '.' :: r2 =>
      let (n2, r3) := takeDigits r2
      decide (0 < n1 + n2) && decide (r3 = [])
  | _ => false

/-- Validity of a string as a `decimal.Decimal` literal. -/
def isValidDecimal (s : String) : Bool :=
  match s.toList with
  | '+' :: rest => decAfterSign rest
  | '-' :: rest => decAfterSign rest
  | cs => decAfterSign cs

/-- Python `decimal.Decimal` value constructed from a string.  The literal
is kept exactly (no binary-float rounding), so the decimal-string form of
the stored value is the construction string itself. -/
structure Decimal where
  lit : String
deriving DecidableEq

/-- `Decimal(s)`: validates the literal; `InvalidOperation` otherwise. -/
def Decimal.ofString (s : String) : Except String Decimal :=
  if isValidDecimal s then .ok ⟨s⟩ else .error "InvalidOperation"

/-- A whole-second instant of the local clock (`datetime.now()`). -/
structure DateTime where
  year : Nat
  month : Nat
  day : Nat
  hour : Nat
  minute : Nat
  second : Nat
deriving DecidableEq

/-- Zero-pad to two digits. -/
def pad2 (n : Nat) : String :=
  if n < 10 then "0" ++ toString n else toString n

/-- Zero-pad to four digits. -/
def pad4 (n : Nat) : String :=
  if n < 10 then "000" ++ toString n
  else if n < 100 then "00" ++ toString n
  else if n < 1000 then "0" ++ toString n
  else toString n

/-- `datetime.isoformat()` for a whole-second instant. -/
def DateTime.isoformat (t : DateTime) : String :=
  pad4 t.year ++ "-" ++ pad2 t.month ++ "-" ++ pad2 t.day ++ "T" ++
    pad2 t.hour ++ ":" ++ pad2 t.minute ++ ":" ++ pad2 t.second

/-- `datetime.strftime("%Y/%m/%d")`. -/
def DateTime.datePath (t : DateTime) : String :=
  pad4 t.year ++ "/" ++ pad2 t.month ++ "/" ++ pad2 t.day

/-- One `s3.put_object` call: bucket, key, body, content type and the
side metadata. -/
structure S3Put where
  bucket : String
  key : String
  body : Json
  contentType : String
  metadata : List (String × String)

/-- One `table.put_item` row: the 13 normalized fields (lines 88-103). -/
structure DdbItem where
  city : String
  timestamp : String
  temperature : Decimal
  humidity : Decimal
  pressure : Decimal
  weather_condition : Json
  weather_description : Json
  wind_speed : Decimal
  visibility : Decimal
  cloudiness : Decimal
  country : Json
  sunrise : Decimal
  sunset : Decimal

/-- The per-city outcome appended to `results`. -/
inductive CityResult where
  | success (city timestamp : String) (temperature : Json) : CityResult
  | error (city msg : String) : CityResult

/-- The `city` field present in both outcome shapes. -/
def CityResult.city : CityResult → String
  | .success c _ _ => c
  | .error c _ => c

/-- The `status` field: `"success"` or `"error"`. -/
def CityResult.statusStr : CityResult → String
  | .success _ _ _ => "success"
  | .error _ _ => "error"

/-- The dict appended to `results` (lines 107-112 / 117-120). -/
def CityResult.toJson : CityResult → Json
  | .success c ts temp =>
      .obj [("city", .str c), ("status", .str "success"),
            ("timestamp", .str ts), ("temperature", temp)]
  | .error c msg =>
      .obj [("city", .str c), ("status", .str "error"), ("error", .str msg)]

/-- Everything the environment decides during one invocation: client
construction, the two environment variables, the HTTP fetch keyed by the
full request URL, the outcome of each storage write, and the successive
values returned by `datetime.now()` (indexed by call count). -/
structure Behavior where
  clientInit : Except String Unit
  envApiKey : Option String
  envBucketName : Option String
  http : String → Except String Json
  s3PutResult : S3Put → Except String Unit
  ddbPutResult : DdbItem → Except String Unit
  now : Nat → DateTime

/-- The outward calls an invocation performed, in order per kind. -/
structure Trace where
  httpCalls : List String
  s3Puts : List S3Put
  ddbPuts : List DdbItem

/-- The empty trace. -/
def Trace.empty : Trace := ⟨[], [], []⟩

/-- Concatenation of traces of successive program parts. -/
def Trace.append (t u : Trace) : Trace :=
  ⟨t.httpCalls ++ u.httpCalls, t.s3Puts ++ u.s3Puts, t.ddbPuts ++ u.ddbPuts⟩

/-- Python truthiness of an `os.environ.get` result: absent and the empty
string are both falsy (`if not api_key`). -/
def truthyEnv : Option String → Bool
  | none => false
  | some s => !(s == "")


/-- The provider URL (line 55). -/
def buildUrl (cityQuery apiKey : String) : String :=
  "http://api.openweathermap.org/data/2.5/weather?q=" ++ cityQuery ++
    "&appid=" ++ apiKey ++ "&units=metric"

/-- `current_temp = data.get('main', \x7b\x7d).get('temp', 'N/A')` (line 61). -/
def currentTemp (data : Json) : Except String Json := do
  (← data.getD "main" (.obj [])).getD "temp" (.str "N/A")

/-- `display_name.replace(' ', '_')` (line 69); the single-character
`str.replace` is a character-by-character map. -/
def underscoreSpaces (s : String) : String :=
  ⟨s.data.map (fun ch => if ch = ' ' then '_' else ch)⟩

/-- The values of one DynamoDB row that are extracted from the payload
(the `Item` dict of lines 88-103 minus the `city`/`timestamp` variables,
in the evaluation order of the dict literal). -/
structure Fields where
  temperature : Decimal
  humidity : Decimal
  pressure : Decimal
  weather_condition : Json
  weather_description : Json
  wind_speed : Decimal
  visibility : Decimal
  cloudiness : Decimal
  country : Json
  sunrise : Decimal
  sunset : Decimal

/-- `Decimal(str(<lookup>))` for one numeric field. -/
def decField (j : Except String Json) : Except String Decimal := do
  Decimal.ofString (← j).pyStr

/-- Extraction of the payload-derived values of the row, in the order the
dict literal of lines 88-103 evaluates them; the first failing access or
conversion aborts with its exception. -/
def extractFields (data : Json) : Except String Fields := do
  let temperature ← decField (do (← data.idx "main").idx "temp")
  let humidity ← decField (do (← data.idx "main").idx "humidity")
  let pressure ← decField (do (← data.idx "main").idx "pressure")
  let weather_condition ← (do (← (← data.idx "weather").idxNat 0).idx "main" : Except String Json)
  let weather_description ← (do (← (← data.idx "weather").idxNat 0).idx "description" : Except String Json)
  let wind_speed ← decField (do (← data.idx "wind").idx "speed")
  let visibility ← decField (data.getD "visibility" (.num "0"))
  let cloudiness ← decField (do (← data.idx "clouds").idx "all")
  let country ← (do (← data.idx "sys").idx "country" : Except String Json)
  let sunrise ← decField (do (← data.idx "sys").idx "sunrise")
  let sunset ← decField (do (← data.idx "sys").idx "sunset")
  .ok { temperature := temperature, humidity := humidity, pressure := pressure,
        weather_condition := weather_condition, weather_description := weather_description,
        wind_speed := wind_speed, visibility := visibility, cloudiness := cloudiness,
        country := country, sunrise := sunrise, sunset := sunset }

/-- The row from the extracted fields plus the `city` and `timestamp`
variables. -/
def itemOf (f : Fields) (city timestamp : String) : DdbItem :=
  { city := city, timestamp := timestamp,
    temperature := f.temperature, humidity := f.humidity, pressure := f.pressure,
    weather_condition := f.weather_condition, weather_description := f.weather_description,
    wind_speed := f.wind_speed, visibility := f.visibility, cloudiness := f.cloudiness,
    country := f.country, sunrise := f.sunrise, sunset := f.sunset }

/-- The full `Item` of `table.put_item`. -/
def extractItem (data : Json) (city timestamp : String) : Except String DdbItem :=
  (extractFields data).map fun f => itemOf f city timestamp

/-- `data['timestamp'] = timestamp; data['city'] = display_name`
(lines 66-67). -/
def stampFields (fl : List (String × Json)) (ts city : String) : List (String × Json) :=
  setKey (setKey fl "timestamp" (.str ts)) "city" (.str city)

/-- The `s3.put_object` call of lines 74-84, for display name `disp`,
collection timestamp `ts`, date path `dp` and stamped body `body`. -/
def rawPut (bucketName disp ts dp : String) (body : Json) : S3Put :=
  { bucket := bucketName,
    key := "raw-data/" ++ underscoreSpaces disp ++ "/" ++ dp ++ "/" ++ ts ++ ".json",
    body := body, contentType := "application/json",
    metadata := [("city", disp), ("collection_time", ts),
                 ("data_source", "openweathermap")] }

/-- One iteration of the per-city loop (lines 50-120).  `k` is the number
of `datetime.now()` calls made so far; the result is the appended
`CityResult`, the calls this iteration performed, and the new clock
index.  Every exception inside the iteration is caught by the per-city
`except` (line 114) and becomes an error result carrying the message. -/
def processCity (b : Behavior) (apiKey bucketName : String)
    (cityQuery displayName : String) (k : Nat) : CityResult × Trace × Nat :=
  let url := buildUrl cityQuery apiKey
  match b.http url with
  | .error e => (.error displayName e, ⟨[url], [], []⟩, k)
  | .ok data =>
    match currentTemp data with
    | .error e => (.error displayName e, ⟨[url], [], []⟩, k)
    | .ok current_temp =>
      match data with
      | .obj fl =>
        let timestamp := (b.now k).isoformat
        let data1 := Json.obj (stampFields fl timestamp displayName)
        let put : S3Put :=
          rawPut bucketName displayName timestamp (b.now (k + 1)).datePath data1
        match b.s3PutResult put with
        | .error e => (.error displayName e, ⟨[url], [put], []⟩, k + 2)
        | .ok _ =>
          match extractItem data1 displayName timestamp with
          | .error e => (.error displayName e, ⟨[url], [put], []⟩, k + 2)
          | .ok item =>
            match b.ddbPutResult item with
            | .error e => (.error displayName e, ⟨[url], [put], [item]⟩, k + 2)
            | .ok _ =>
              (.success displayName timestamp current_temp, ⟨[url], [put], [item]⟩, k + 2)
      | _ =>
        -- unreachable: `currentTemp` only succeeds on a dict
        (.error displayName "TypeError: item assignment on non-dict", ⟨[url], [], []⟩, k)

/-- The query tokens of line 44 (`Cape%20Town` is pre-encoded). -/
def cityQueries : List String :=
  ["Pretoria", "Cape%20Town", "Johannesburg", "Durban"]

/-- The display names of line 45. -/
def cityDisplay : List String :=
  ["Pretoria", "Cape Town", "Johannesburg", "Durban"]

/-- The `for i, city in enumerate(cities)` loop (lines 49-120): processes
each (query, display) pair in order, accumulating results and calls. -/
def runCities (b : Behavior) (apiKey bucketName : String) :
    List (String × String) → Nat → List CityResult × Trace × Nat
  | [], k => ([], Trace.empty, k)
  | (q, d) :: rest, k =>
      let step := processCity b apiKey bucketName q d k
      let tail := runCities b apiKey bucketName rest step.2.2
      (step.1 :: tail.1, step.2.1.append tail.2.1, tail.2.2)

/-- `len([r for r in results if r['status'] == 'success'])` (line 123). -/
def successCount (rs : List CityResult) : Nat :=
  (rs.filter (fun r => r.statusStr == "success")).length

/-- `f"\x7bsuccess_rate:.1f\x7d"` for `successes / total * 100`, written in
tenths of a percent.  For `total = 4` — the only reachable total — the
value is an exact multiple of a quarter percent, so integer arithmetic
coincides with Python's float formatting. -/
def formatRate (succ total : Nat) : String :=
  let tenths := succ * 1000 / total
  toString (tenths / 10) ++ "." ++ toString (tenths % 10)

/-- The `statusCode`/`body` value the handler returns. -/
structure Response where
  statusCode : Nat
  body : Json

/-- Lookup of a top-level field of a response body. -/
def Response.bodyField (r : Response) (key : String) : Option Json :=
  match r.body with
  | .obj fl => lookupKey fl key
  | _ => none

/-- The whole `lambda_handler` (lines 9-151): client construction, the
two configuration checks, the per-city loop, the aggregation, and the
outer `except` that turns any exception escaping the per-city isolation
into a 500 response.  In this model the only fallible step outside the
per-city bodies is client construction. -/
def lambda_handler (b : Behavior) : Response × Trace :=
  match b.clientInit with
  | .error e =>
      (⟨500, .obj [("error", .str "Fatal error in weather data collection"),
                   ("details", .str e),
                   ("execution_time", .str (b.now 0).isoformat)]⟩, Trace.empty)
  | .ok _ =>
      if truthyEnv b.envApiKey then
        if truthyEnv b.envBucketName then
          let apiKey := b.envApiKey.getD ""
          let bucketName := b.envBucketName.getD ""
          let run := runCities b apiKey bucketName (cityQueries.zip cityDisplay) 0
          let results := run.1
          let succ := successCount results
          (⟨200, .obj [("message", .str "Weather data collection completed"),
                       ("processed_cities", .num (toString results.length)),
                       ("successful_cities", .num (toString succ)),
                       ("success_rate", .str (formatRate succ results.length ++ "%")),
                       ("execution_time", .str (b.now run.2.2).isoformat),
                       ("results", .arr (results.map CityResult.toJson))]⟩,
           run.2.1)
        else
          (⟨400, .obj [("error", .str "Missing S3_BUCKET_NAME environment variable")]⟩,
           Trace.empty)
      else
        (⟨400, .obj [("error", .str "Missing WEATHER_API_KEY environment variable")]⟩,
         Trace.empty)

/-! ### Concrete fixtures -/

/-- A typical OpenWeatherMap response payload, as parsed. -/
def samplePayload : List (String × Json) :=
  [("coord", .obj [("lon", .num "28.1878"), ("lat", .num "-25.7449")]),
   ("weather", .arr [.obj [("id", .num "800"), ("main", .str "Clear"),
                           ("description", .str "clear sky"), ("icon", .str "01d")]]),
   ("main", .obj [("temp", .num "23.456"), ("feels_like", .num "22.9"),
                  ("pressure", .num "1015"), ("humidity", .num "40")]),
   ("visibility", .num "10000"),
   ("wind", .obj [("speed", .num "3.6"), ("deg", .num "220")]),
   ("clouds", .obj [("all", .num "0")]),
   ("sys", .obj [("country", .str "ZA"), ("sunrise", .num "1709611295"),
                 ("sunset", .num "1709656626")]),
   ("name", .str "Pretoria")]

/-- The same payload without the optional `visibility` field. -/
def noVisibilityPayload : List (String × Json) :=
  (samplePayload.filter (fun p => !(p.1 == "visibility")))

/-- A fixed collection instant, 2024-03-05T10:00:00. -/
def sampleInstant : DateTime := ⟨2024, 3, 5, 10, 0, 0⟩

/-- An environment in which everything succeeds. -/
def baseBehavior : Behavior :=
  { clientInit := .ok (),
    envApiKey := some "test-key",
    envBucketName := some "test-bucket",
    http := fun _ => .ok (.obj samplePayload),
    s3PutResult := fun _ => .ok (),
    ddbPutResult := fun _ => .ok (),
    now := fun _ => sampleInstant }

/-- Everything succeeds except the HTTP call for Cape Town. -/
def oneFailBehavior : Behavior :=
  { baseBehavior with
    http := fun u =>
      if u = buildUrl "Cape%20Town" "test-key" then
        .error "HTTP Error 500: Internal Server Error"
      else .ok (.obj samplePayload) }

/-- Client construction itself fails (e.g. no credentials for boto3),
while the weather API key is also absent from the environment. -/
def fatalNoKeyBehavior : Behavior :=
  { baseBehavior with
    clientInit := .error "Unable to locate credentials",
    envApiKey := none }

/-- The API-key variable is absent. -/
def missingKeyBehavior : Behavior :=
  { baseBehavior with envApiKey := none }

/-- Both variables are present but empty. -/
def emptyEnvBehavior : Behavior :=
  { baseBehavior with envApiKey := some "", envBucketName := some "" }

/-- The bucket variable alone is empty. -/
def emptyBucketBehavior : Behavior :=
  { baseBehavior with envBucketName := some "" }

/-- Every payload lacks `visibility`; everything succeeds. -/
def noVisibilityBehavior : Behavior :=
  { baseBehavior with http := fun _ => .ok (.obj noVisibilityPayload) }

/-- Every DynamoDB write fails. -/
def ddbFailBehavior : Behavior :=
  { baseBehavior with
    ddbPutResult := fun _ => .error "ProvisionedThroughputExceededException" }

/-- Every S3 write fails. -/
def s3FailBehavior : Behavior :=
  { baseBehavior with
    s3PutResult := fun _ => .error "AccessDenied" }

/-- The `results` list of the main path, as a function of the behavior. -/
def handlerResults (b : Behavior) : List CityResult :=
  (runCities b (b.envApiKey.getD "") (b.envBucketName.getD "")
    (cityQueries.zip cityDisplay) 0).1

/-- The row fields extracted from `samplePayload`. -/
def sampleFields : Fields :=
  ⟨⟨"23.456"⟩, ⟨"40"⟩, ⟨"1015"⟩, .str "Clear", .str "clear sky",
   ⟨"3.6"⟩, ⟨"10000"⟩, ⟨"0"⟩, .str "ZA", ⟨"1709611295"⟩, ⟨"1709656626"⟩⟩

/-- The query token of the i-th configured city. -/
def queryAt (i : Fin 4) : String := cityQueries.getD i.val ""

/-- The display name of the i-th configured city. -/
def displayAt (i : Fin 4) : String := cityDisplay.getD i.val ""

/-! ### Basic lemmas about the embedding -/
/-- Truthiness of an absent variable. -/
@[simp]
theorem truthyEnv_none : truthyEnv none = false := rfl

/-- Truthiness of a present variable. -/
@[simp]
theorem truthyEnv_some (s : String) : truthyEnv (some s) = !(s == "") := rfl


/-- `bind` of a success evaluates the continuation. -/
@[simp]
theorem ok_bind {α β : Type} (a : α) (g : α → Except String β) :
    (Except.ok a : Except String α) >>= g = g a := rfl

/-- `bind` of a failure propagates the failure. -/
@[simp]
theorem error_bind {α β : Type} (e : String) (g : α → Except String β) :
    (Except.error e : Except String α) >>= g = .error e := rfl

/-- Inversion of a successful `bind`. -/
theorem bind_ok_iff {α β : Type} (a : Except String α) (g : α → Except String β) (v : β) :
    (a >>= g) = .ok v ↔ ∃ x, a = .ok x ∧ g x = .ok v := by
  cases a with
  | error e => simp
  | ok x => simp

/-- Lookup after an update: the updated key reads back the new value,
every other key is untouched. -/
theorem lookupKey_setKey (fl : List (String × Json)) (k k' : String) (v : Json) :
    lookupKey (setKey fl k v) k' = if k = k' then some v else lookupKey fl k' := by
  induction fl with
  | nil => by_cases h : k = k' <;> simp [setKey, lookupKey, h]
  | cons p rest ih =>
      obtain ⟨pk, pv⟩ := p
      by_cases h1 : pk = k
      · subst h1
        by_cases h2 : pk = k' <;> simp [setKey, lookupKey, h2]
      · by_cases h2 : pk = k'
        · subst h2
          have hk : ¬(k = pk) := fun h => h1 h.symm
          simp [setKey, lookupKey, h1, hk]
        · simp [setKey, lookupKey, h1, h2, ih]

/-- Stamping `timestamp` and `city` into the payload does not change any
of the fields the row extraction reads. -/
theorem extractFields_stamp (fl : List (String × Json)) (ts city : String) :
    extractFields (Json.obj (stampFields fl ts city)) = extractFields (Json.obj fl) := by
  simp [extractFields, stampFields, Json.idx, Json.getD, lookupKey_setKey]

/-! ### Branch equations for the per-city loop body -/

/-- A failed HTTP fetch is caught and becomes an error result; no storage
call is made and the clock is untouched. -/
theorem processCity_httpError (b : Behavior) (apiKey bucketName q disp : String)
    (e : String) (k : Nat) (hh : b.http (buildUrl q apiKey) = .error e) :
    processCity b apiKey bucketName q disp k =
      (.error disp e, ⟨[buildUrl q apiKey], [], []⟩, k) := by
  simp [processCity, hh]

/-- The fully successful iteration: fetch, stamp, S3 put, row extraction
and DynamoDB put all succeed. -/
theorem processCity_ok (b : Behavior) (apiKey bucketName q disp : String)
    (fl : List (String × Json)) (f : Fields) (ct : Json) (k : Nat)
    (hh : b.http (buildUrl q apiKey) = .ok (.obj fl))
    (hx : extractFields (.obj fl) = .ok f)
    (hct : currentTemp (.obj fl) = .ok ct)
    (hs3 : ∀ p, b.s3PutResult p = .ok ())
    (hdb : ∀ it, b.ddbPutResult it = .ok ()) :
    processCity b apiKey bucketName q disp k =
      (.success disp (b.now k).isoformat ct,
       ⟨[buildUrl q apiKey],
        [rawPut bucketName disp (b.now k).isoformat (b.now (k + 1)).datePath
          (.obj (stampFields fl (b.now k).isoformat disp))],
        [itemOf f disp (b.now k).isoformat]⟩,
       k + 2) := by
  simp [processCity, hh, hct, extractItem, extractFields_stamp, hx, Except.map, hs3, hdb]

/-- A failed S3 write is caught and becomes an error result; the put was
attempted but no row write follows. -/
theorem processCity_s3Error (b : Behavior) (apiKey bucketName q disp : String)
    (fl : List (String × Json)) (ct : Json) (e : String) (k : Nat)
    (hh : b.http (buildUrl q apiKey) = .ok (.obj fl))
    (hct : currentTemp (.obj fl) = .ok ct)
    (hs3 : b.s3PutResult (rawPut bucketName disp (b.now k).isoformat
      (b.now (k + 1)).datePath (.obj (stampFields fl (b.now k).isoformat disp))) = .error e) :
    processCity b apiKey bucketName q disp k =
      (.error disp e,
       ⟨[buildUrl q apiKey],
        [rawPut bucketName disp (b.now k).isoformat (b.now (k + 1)).datePath
          (.obj (stampFields fl (b.now k).isoformat disp))],
        []⟩,
       k + 2) := by
  simp [processCity, hh, hct, hs3]

/-- A failed DynamoDB write is caught and becomes an error result; the S3
put already performed stays in the trace. -/
theorem processCity_ddbError (b : Behavior) (apiKey bucketName q disp : String)
    (fl : List (String × Json)) (f : Fields) (ct : Json) (e : String) (k : Nat)
    (hh : b.http (buildUrl q apiKey) = .ok (.obj fl))
    (hx : extractFields (.obj fl) = .ok f)
    (hct : currentTemp (.obj fl) = .ok ct)
    (hs3 : ∀ p, b.s3PutResult p = .ok ())
    (hdb : b.ddbPutResult (itemOf f disp (b.now k).isoformat) = .error e) :
    processCity b apiKey bucketName q disp k =
      (.error disp e,
       ⟨[buildUrl q apiKey],
        [rawPut bucketName disp (b.now k).isoformat (b.now (k + 1)).datePath
          (.obj (stampFields fl (b.now k).isoformat disp))],
        [itemOf f disp (b.now k).isoformat]⟩,
       k + 2) := by
  simp [processCity, hh, hct, extractItem, extractFields_stamp, hx, Except.map, hs3, hdb]

/-- Every branch of the loop body records the city's display name in the
result. -/
theorem processCity_city (b : Behavior) (apiKey bucketName q disp : String) (k : Nat) :
    (processCity b apiKey bucketName q disp k).1.city = disp := by
  simp only [processCity]
  split
  · rfl
  · split
    · rfl
    · split
      · split
        · rfl
        · split
          · rfl
          · split <;> rfl
      · rfl

/-! ### The loop over the four cities -/

/-- Appending the empty trace is a no-op. -/
@[simp]
theorem Trace.append_empty (t : Trace) : t.append Trace.empty = t := by
  simp [Trace.append, Trace.empty]

/-- The loop yields one result per city pair. -/
theorem runCities_length (b : Behavior) (apiKey bucketName : String)
    (l : List (String × String)) (k : Nat) :
    (runCities b apiKey bucketName l k).1.length = l.length := by
  induction l generalizing k with
  | nil => rfl
  | cons p rest ih => obtain ⟨q, d⟩ := p; simp [runCities, ih]

/-- Each result of the loop carries the display name of its pair, in
order. -/
theorem runCities_map_city (b : Behavior) (apiKey bucketName : String)
    (l : List (String × String)) (k : Nat) :
    (runCities b apiKey bucketName l k).1.map CityResult.city = l.map Prod.snd := by
  induction l generalizing k with
  | nil => rfl
  | cons p rest ih =>
      obtain ⟨q, d⟩ := p
      simp [runCities, ih, processCity_city]

/-- Unfolding the loop over the four configured cities, given the
outcome of each iteration. -/
theorem runCities_four (b : Behavior) (apiKey bucketName : String) (k : Nat)
    (r0 r1 r2 r3 : CityResult) (tr0 tr1 tr2 tr3 : Trace) (k0 k1 k2 k3 : Nat)
    (e0 : processCity b apiKey bucketName "Pretoria" "Pretoria" k = (r0, tr0, k0))
    (e1 : processCity b apiKey bucketName "Cape%20Town" "Cape Town" k0 = (r1, tr1, k1))
    (e2 : processCity b apiKey bucketName "Johannesburg" "Johannesburg" k1 = (r2, tr2, k2))
    (e3 : processCity b apiKey bucketName "Durban" "Durban" k2 = (r3, tr3, k3)) :
    runCities b apiKey bucketName (cityQueries.zip cityDisplay) k =
      ([r0, r1, r2, r3], tr0.append (tr1.append (tr2.append tr3)), k3) := by
  simp [cityQueries, cityDisplay, runCities, e0, e1, e2, e3]

/-- The main branch of the handler: client construction succeeded and
both configuration values are non-empty. -/
theorem lambda_handler_main (b : Behavior) (apiKey bucketName : String)
    (hci : b.clientInit = .ok ())
    (hk : b.envApiKey = some apiKey) (hknz : apiKey ≠ "")
    (hb : b.envBucketName = some bucketName) (hbnz : bucketName ≠ "") :
    lambda_handler b =
      (⟨200, .obj [("message", .str "Weather data collection completed"),
                   ("processed_cities", .num (toString
                     (runCities b apiKey bucketName (cityQueries.zip cityDisplay) 0).1.length)),
                   ("successful_cities", .num (toString (successCount
                     (runCities b apiKey bucketName (cityQueries.zip cityDisplay) 0).1))),
                   ("success_rate", .str (formatRate (successCount
                     (runCities b apiKey bucketName (cityQueries.zip cityDisplay) 0).1)
                     (runCities b apiKey bucketName (cityQueries.zip cityDisplay) 0).1.length ++ "%")),
                   ("execution_time", .str (b.now
                     (runCities b apiKey bucketName (cityQueries.zip cityDisplay) 0).2.2).isoformat),
                   ("results", .arr ((runCities b apiKey bucketName
                     (cityQueries.zip cityDisplay) 0).1.map CityResult.toJson))]⟩,
       (runCities b apiKey bucketName (cityQueries.zip cityDisplay) 0).2.1) := by
  simp [lambda_handler, hci, hk, hb, truthyEnv, hknz, hbnz]

/-- The response fields of the main branch, for an arbitrary loop
outcome `(rs, tr, kf)`. -/
theorem lambda_handler_fields (b : Behavior) (apiKey bucketName : String)
    (hci : b.clientInit = .ok ())
    (hk : b.envApiKey = some apiKey) (hknz : apiKey ≠ "")
    (hb : b.envBucketName = some bucketName) (hbnz : bucketName ≠ "")
    (rs : List CityResult) (tr : Trace) (kf : Nat)
    (hrun : runCities b apiKey bucketName (cityQueries.zip cityDisplay) 0 = (rs, tr, kf)) :
    (lambda_handler b).1.statusCode = 200 ∧
    (lambda_handler b).1.bodyField "message" =
      some (.str "Weather data collection completed") ∧
    (lambda_handler b).1.bodyField "processed_cities" =
      some (.num (toString rs.length)) ∧
    (lambda_handler b).1.bodyField "successful_cities" =
      some (.num (toString (successCount rs))) ∧
    (lambda_handler b).1.bodyField "success_rate" =
      some (.str (formatRate (successCount rs) rs.length ++ "%")) ∧
    (lambda_handler b).1.bodyField "execution_time" =
      some (.str (b.now kf).isoformat) ∧
    (lambda_handler b).1.bodyField "results" =
      some (.arr (rs.map CityResult.toJson)) := by
  rw [lambda_handler_main b apiKey bucketName hci hk hknz hb hbnz, hrun]
  refine ⟨rfl, ?_, ?_, ?_, ?_, ?_, ?_⟩ <;>
    simp [Response.bodyField, lookupKey]

/-- A successful `Decimal` construction keeps the literal exactly. -/
theorem ofString_ok {s : String} {d : Decimal} (h : Decimal.ofString s = .ok d) :
    d = ⟨s⟩ := by
  unfold Decimal.ofString at h
  split at h
  · exact (Except.ok.inj h).symm
  · simp at h


/-! ### The claims -/

/-- Claim C2: for every behavior of the external services the handler
returns a structured status/body result with code 200, 400 or 500; and
any exception escaping the per-city isolation — in this program, a
failure of client construction before the loop — yields a 500 response
whose body holds the fixed error label, the exception's message, and the
current instant, with no per-city results. -/
theorem claim_C2_neverRaises (b : Behavior) :
    ((lambda_handler b).1.statusCode = 200 ∨ (lambda_handler b).1.statusCode = 400 ∨
      (lambda_handler b).1.statusCode = 500) ∧
    (∀ e, b.clientInit = .error e →
      lambda_handler b =
        (⟨500, .obj [("error", .str "Fatal error in weather data collection"),
                     ("details", .str e),
                     ("execution_time", .str (b.now 0).isoformat)]⟩, Trace.empty) ∧
      (lambda_handler b).1.bodyField "results" = none) := by
  constructor
  · rcases hci : b.clientInit with e | u
    · right; right; simp [lambda_handler, hci]
    · cases u
      by_cases hk : truthyEnv b.envApiKey
      · by_cases hb : truthyEnv b.envBucketName
        · left; simp [lambda_handler, hci, hk, hb]
        · right; left; simp [lambda_handler, hci, hk, hb]
      · right; left; simp [lambda_handler, hci, hk]
  · intro e he
    constructor
    · simp [lambda_handler, he]
    · simp [lambda_handler, he, Response.bodyField, lookupKey]

/-- Witness for C2 at a behavior whose client construction fails. -/
theorem claim_C2_witness :
    fatalNoKeyBehavior.clientInit = .error "Unable to locate credentials" ∧
    (lambda_handler fatalNoKeyBehavior =
      (⟨500, .obj [("error", .str "Fatal error in weather data collection"),
                   ("details", .str "Unable to locate credentials"),
                   ("execution_time", .str "2024-03-05T10:00:00")]⟩, Trace.empty) ∧
     (lambda_handler fatalNoKeyBehavior).1.bodyField "results" = none) :=
  ⟨rfl, (claim_C2_neverRaises fatalNoKeyBehavior).2 "Unable to locate credentials" rfl⟩

/-- Claim C3, counterexample: with the API-key variable absent but client
construction failing (which the code performs before the configuration
checks), the invocation returns 500, not 400 — the configuration error
is not detected before the client-construction work. -/
theorem claim_C3_counterexample :
    fatalNoKeyBehavior.envApiKey = none ∧
    (lambda_handler fatalNoKeyBehavior).1.statusCode = 500 ∧
    ¬((lambda_handler fatalNoKeyBehavior).1.statusCode = 400) :=
  ⟨rfl, rfl, by decide⟩

/-- Claim C3 as amended: provided client construction succeeds, an absent
API-key variable yields status 400 with the exact missing-variable body,
before any HTTP or storage call; and analogously for the bucket
variable. -/
theorem claim_C3_missingConfig (b : Behavior) (hci : b.clientInit = .ok ()) :
    (b.envApiKey = none →
      lambda_handler b =
        (⟨400, .obj [("error", .str "Missing WEATHER_API_KEY environment variable")]⟩,
         Trace.empty) ∧
      (lambda_handler b).2.httpCalls = [] ∧ (lambda_handler b).2.s3Puts = [] ∧
      (lambda_handler b).2.ddbPuts = []) ∧
    (truthyEnv b.envApiKey = true → b.envBucketName = none →
      lambda_handler b =
        (⟨400, .obj [("error", .str "Missing S3_BUCKET_NAME environment variable")]⟩,
         Trace.empty) ∧
      (lambda_handler b).2.httpCalls = [] ∧ (lambda_handler b).2.s3Puts = [] ∧
      (lambda_handler b).2.ddbPuts = []) := by
  constructor
  · intro hk
    have h : lambda_handler b =
        (⟨400, .obj [("error", .str "Missing WEATHER_API_KEY environment variable")]⟩,
         Trace.empty) := by
      simp [lambda_handler, hci, hk]
    exact ⟨h, by simp [h, Trace.empty], by simp [h, Trace.empty], by simp [h, Trace.empty]⟩
  · intro hk hb
    have h : lambda_handler b =
        (⟨400, .obj [("error", .str "Missing S3_BUCKET_NAME environment variable")]⟩,
         Trace.empty) := by
      simp [lambda_handler, hci, hk, hb]
    exact ⟨h, by simp [h, Trace.empty], by simp [h, Trace.empty], by simp [h, Trace.empty]⟩

/-- Witness for the amended C3 at a behavior with the key absent. -/
theorem claim_C3_witness :
    (lambda_handler missingKeyBehavior =
      (⟨400, .obj [("error", .str "Missing WEATHER_API_KEY environment variable")]⟩,
       Trace.empty) ∧
     (lambda_handler missingKeyBehavior).2.httpCalls = [] ∧
     (lambda_handler missingKeyBehavior).2.s3Puts = [] ∧
     (lambda_handler missingKeyBehavior).2.ddbPuts = []) :=
  (claim_C3_missingConfig missingKeyBehavior rfl).1 rfl

/-- Claim C8: an empty-string value of either required variable is
treated exactly like an absent one (Python truthiness), with the API key
checked before the bucket name: an empty key yields the key message
whatever the bucket value is. -/
theorem claim_C8_emptyString (b : Behavior) (hci : b.clientInit = .ok ()) :
    (b.envApiKey = some "" →
      lambda_handler b =
        (⟨400, .obj [("error", .str "Missing WEATHER_API_KEY environment variable")]⟩,
         Trace.empty)) ∧
    (truthyEnv b.envApiKey = true → b.envBucketName = some "" →
      lambda_handler b =
        (⟨400, .obj [("error", .str "Missing S3_BUCKET_NAME environment variable")]⟩,
         Trace.empty)) := by
  constructor
  · intro hk
    simp [lambda_handler, hci, hk]
  · intro hk hb
    simp [lambda_handler, hci, hk, hb]

/-- Witness for C8: both variables empty gives the key message (the key
is checked first); an empty bucket alone gives the bucket message. -/
theorem claim_C8_witness :
    (lambda_handler emptyEnvBehavior =
      (⟨400, .obj [("error", .str "Missing WEATHER_API_KEY environment variable")]⟩,
       Trace.empty)) ∧
    (lambda_handler emptyBucketBehavior =
      (⟨400, .obj [("error", .str "Missing S3_BUCKET_NAME environment variable")]⟩,
       Trace.empty)) :=
  ⟨(claim_C8_emptyString emptyEnvBehavior rfl).1 rfl,
   (claim_C8_emptyString emptyBucketBehavior rfl).2 rfl rfl⟩

/-- Claim C10: every status-200 return carries exactly 4 per-city
results, in the fixed order Pretoria, Cape Town, Johannesburg, Durban,
each entry's city field being that city's display name whatever its
status, and `processed_cities` is 4. -/
theorem claim_C10_fourResults (b : Behavior)
    (h200 : (lambda_handler b).1.statusCode = 200) :
    (handlerResults b).length = 4 ∧
    (handlerResults b).map CityResult.city = cityDisplay ∧
    (lambda_handler b).1.bodyField "results" =
      some (.arr ((handlerResults b).map CityResult.toJson)) ∧
    (lambda_handler b).1.bodyField "processed_cities" = some (.num "4") := by
  have hlen : (handlerResults b).length = 4 := by
    rw [handlerResults, runCities_length]
    rfl
  have hmap : (handlerResults b).map CityResult.city = cityDisplay := by
    rw [handlerResults, runCities_map_city]
    rfl
  refine ⟨hlen, hmap, ?_, ?_⟩ <;>
  · rcases hci : b.clientInit with e | u
    · simp [lambda_handler, hci] at h200
    · cases u
      by_cases hk : truthyEnv b.envApiKey
      · by_cases hb : truthyEnv b.envBucketName
        · simp only [handlerResults] at hlen ⊢
          simp [lambda_handler, hci, hk, hb, Response.bodyField, lookupKey, hlen]
          try rfl
        · simp [lambda_handler, hci, hk, hb] at h200
      · simp [lambda_handler, hci, hk] at h200

/-- Witness for C10 at the all-success behavior. -/
theorem claim_C10_witness :
    ((lambda_handler baseBehavior).1.statusCode = 200) ∧
    ((handlerResults baseBehavior).length = 4 ∧
     (handlerResults baseBehavior).map CityResult.city = cityDisplay ∧
     (lambda_handler baseBehavior).1.bodyField "results" =
       some (.arr ((handlerResults baseBehavior).map CityResult.toJson)) ∧
     (lambda_handler baseBehavior).1.bodyField "processed_cities" = some (.num "4")) :=
  ⟨rfl, claim_C10_fourResults baseBehavior rfl⟩

/-- Claim C6: for every city observation that was fetched successfully,
the S3 write (attempted exactly once) uses the key
`raw-data/<city with spaces underscored>/<Y/m/d of the second clock
read>/<isoformat of the first clock read>.json`. -/
theorem claim_C6_s3Key (b : Behavior) (apiKey bucketName q disp : String)
    (fl : List (String × Json)) (ct : Json) (k : Nat)
    (hh : b.http (buildUrl q apiKey) = .ok (.obj fl))
    (hct : currentTemp (.obj fl) = .ok ct) :
    (processCity b apiKey bucketName q disp k).2.1.s3Puts =
      [rawPut bucketName disp (b.now k).isoformat (b.now (k + 1)).datePath
        (.obj (stampFields fl (b.now k).isoformat disp))] ∧
    (rawPut bucketName disp (b.now k).isoformat (b.now (k + 1)).datePath
        (.obj (stampFields fl (b.now k).isoformat disp))).key =
      "raw-data/" ++ underscoreSpaces disp ++ "/" ++ (b.now (k + 1)).datePath ++ "/" ++
        (b.now k).isoformat ++ ".json" := by
  refine ⟨?_, rfl⟩
  simp only [processCity, hh, hct]
  split
  · rfl
  · split
    · rfl
    · split <;> rfl

/-- Witness for C6: city "Cape Town" collected at 2024-03-05T10:00:00 is
written under `raw-data/Cape_Town/2024/03/05/2024-03-05T10:00:00.json`. -/
theorem claim_C6_witness :
    (processCity baseBehavior "test-key" "test-bucket" "Cape%20Town" "Cape Town" 0).2.1.s3Puts =
      [rawPut "test-bucket" "Cape Town" sampleInstant.isoformat sampleInstant.datePath
        (.obj (stampFields samplePayload sampleInstant.isoformat "Cape Town"))] ∧
    (rawPut "test-bucket" "Cape Town" sampleInstant.isoformat sampleInstant.datePath
        (.obj (stampFields samplePayload sampleInstant.isoformat "Cape Town"))).key =
      "raw-data/Cape_Town/2024/03/05/2024-03-05T10:00:00.json" :=
  ⟨(claim_C6_s3Key baseBehavior "test-key" "test-bucket" "Cape%20Town" "Cape Town"
      samplePayload (.num "23.456") 0 rfl rfl).1, rfl⟩

/-- Claim C9: a success result exists only when both the S3 write and
the DynamoDB write completed without error; a failing S3 write makes the
city an error with no row write attempted; a failing DynamoDB write
makes the city an error while the S3 write already performed stays. -/
theorem claim_C9_successAfterWrites (b : Behavior)
    (apiKey bucketName q disp : String) (k : Nat) :
    (∀ c ts tmp tr k2,
      processCity b apiKey bucketName q disp k = (.success c ts tmp, tr, k2) →
      ∃ p it, tr.s3Puts = [p] ∧ tr.ddbPuts = [it] ∧
        b.s3PutResult p = .ok () ∧ b.ddbPutResult it = .ok ()) ∧
    (∀ fl ct e, b.http (buildUrl q apiKey) = .ok (.obj fl) →
      currentTemp (.obj fl) = .ok ct →
      b.s3PutResult (rawPut bucketName disp (b.now k).isoformat (b.now (k + 1)).datePath
        (.obj (stampFields fl (b.now k).isoformat disp))) = .error e →
      (processCity b apiKey bucketName q disp k).1 = .error disp e ∧
      (processCity b apiKey bucketName q disp k).2.1.ddbPuts = []) ∧
    (∀ fl f ct e, b.http (buildUrl q apiKey) = .ok (.obj fl) →
      extractFields (.obj fl) = .ok f →
      currentTemp (.obj fl) = .ok ct →
      (∀ p, b.s3PutResult p = .ok ()) →
      b.ddbPutResult (itemOf f disp (b.now k).isoformat) = .error e →
      (processCity b apiKey bucketName q disp k).1 = .error disp e ∧
      (processCity b apiKey bucketName q disp k).2.1.s3Puts =
        [rawPut bucketName disp (b.now k).isoformat (b.now (k + 1)).datePath
          (.obj (stampFields fl (b.now k).isoformat disp))]) := by
  refine ⟨?_, ?_, ?_⟩
  · intro c ts tmp tr k2 h
    simp only [processCity] at h
    split at h
    · simp at h
    · split at h
      · simp at h
      · split at h
        · split at h
          · simp at h
          · split at h
            · simp at h
            · split at h
              · simp at h
              · rename_i xs3 a1 hs3res xit item hx xdb a2 hddb
                obtain ⟨h1, h23⟩ := Prod.mk.inj h
                obtain ⟨h2, h3⟩ := Prod.mk.inj h23
                cases a1
                cases a2
                subst h2
                exact ⟨_, _, rfl, rfl, hs3res, hddb⟩
        · simp at h
  · intro fl ct e hh hct hs3
    rw [processCity_s3Error b apiKey bucketName q disp fl ct e k hh hct hs3]
    exact ⟨rfl, rfl⟩
  · intro fl f ct e hh hx hct hs3 hddb
    rw [processCity_ddbError b apiKey bucketName q disp fl f ct e k hh hx hct hs3 hddb]
    exact ⟨rfl, rfl⟩

/-- Witness for C9: a success run at the all-ok behavior (both writes
recorded and successful), and a failing DynamoDB write at the
row-write-failing behavior (error result, S3 write retained). -/
theorem claim_C9_witness :
    (∃ p it,
      (⟨[buildUrl "Pretoria" "test-key"],
        [rawPut "test-bucket" "Pretoria" sampleInstant.isoformat sampleInstant.datePath
          (.obj (stampFields samplePayload sampleInstant.isoformat "Pretoria"))],
        [itemOf sampleFields "Pretoria" sampleInstant.isoformat]⟩ : Trace).s3Puts = [p] ∧
      (⟨[buildUrl "Pretoria" "test-key"],
        [rawPut "test-bucket" "Pretoria" sampleInstant.isoformat sampleInstant.datePath
          (.obj (stampFields samplePayload sampleInstant.isoformat "Pretoria"))],
        [itemOf sampleFields "Pretoria" sampleInstant.isoformat]⟩ : Trace).ddbPuts = [it] ∧
      baseBehavior.s3PutResult p = .ok () ∧ baseBehavior.ddbPutResult it = .ok ()) ∧
    ((processCity ddbFailBehavior "test-key" "test-bucket" "Pretoria" "Pretoria" 0).1 =
      .error "Pretoria" "ProvisionedThroughputExceededException" ∧
     (processCity ddbFailBehavior "test-key" "test-bucket" "Pretoria" "Pretoria" 0).2.1.s3Puts =
      [rawPut "test-bucket" "Pretoria" sampleInstant.isoformat sampleInstant.datePath
        (.obj (stampFields samplePayload sampleInstant.isoformat "Pretoria"))]) :=
  ⟨(claim_C9_successAfterWrites baseBehavior "test-key" "test-bucket" "Pretoria" "Pretoria" 0).1
      "Pretoria" sampleInstant.isoformat (.num "23.456") _ 2 rfl,
   (claim_C9_successAfterWrites ddbFailBehavior "test-key" "test-bucket" "Pretoria" "Pretoria" 0).2.2
      samplePayload sampleFields (.num "23.456") "ProvisionedThroughputExceededException"
      rfl rfl rfl (fun _ => rfl) rfl⟩

/-- Claim C5: for a successfully processed city, every numeric field of
the row written to the structured table is the exact decimal built from
the string form of the source value — its decimal literal equals the
literal present in the source JSON. -/
theorem claim_C5_exactDecimals (b : Behavior) (apiKey bucketName q disp : String) (k : Nat)
    (fl mf wf cf sf w0f : List (String × Json)) (ws : List Json)
    (tempS humS presS windS visS cloudS sunriseS sunsetS : String)
    (wcond wdesc cval : Json) (f : Fields) (ct : Json)
    (hh : b.http (buildUrl q apiKey) = .ok (.obj fl))
    (hct : currentTemp (.obj fl) = .ok ct)
    (hs3 : ∀ p, b.s3PutResult p = .ok ())
    (hdb : ∀ it, b.ddbPutResult it = .ok ())
    (hx : extractFields (.obj fl) = .ok f)
    (hmain : lookupKey fl "main" = some (.obj mf))
    (htemp : lookupKey mf "temp" = some (.num tempS))
    (hhum : lookupKey mf "humidity" = some (.num humS))
    (hpres : lookupKey mf "pressure" = some (.num presS))
    (hweather : lookupKey fl "weather" = some (.arr ws))
    (hw0 : ws.get? 0 = some (.obj w0f))
    (hwcond : lookupKey w0f "main" = some wcond)
    (hwdesc : lookupKey w0f "description" = some wdesc)
    (hwind : lookupKey fl "wind" = some (.obj wf))
    (hspeed : lookupKey wf "speed" = some (.num windS))
    (hvis : lookupKey fl "visibility" = some (.num visS))
    (hclouds : lookupKey fl "clouds" = some (.obj cf))
    (hallc : lookupKey cf "all" = some (.num cloudS))
    (hsys : lookupKey fl "sys" = some (.obj sf))
    (hcountry : lookupKey sf "country" = some cval)
    (hsunrise : lookupKey sf "sunrise" = some (.num sunriseS))
    (hsunset : lookupKey sf "sunset" = some (.num sunsetS)) :
    (processCity b apiKey bucketName q disp k).2.1.ddbPuts =
      [itemOf f disp (b.now k).isoformat] ∧
    f.temperature = ⟨tempS⟩ ∧ f.humidity = ⟨humS⟩ ∧ f.pressure = ⟨presS⟩ ∧
    f.wind_speed = ⟨windS⟩ ∧ f.visibility = ⟨visS⟩ ∧ f.cloudiness = ⟨cloudS⟩ ∧
    f.sunrise = ⟨sunriseS⟩ ∧ f.sunset = ⟨sunsetS⟩ := by
  have h1 : (processCity b apiKey bucketName q disp k).2.1.ddbPuts =
      [itemOf f disp (b.now k).isoformat] := by
    rw [processCity_ok b apiKey bucketName q disp fl f ct k hh hx hct hs3 hdb]
  simp only [extractFields, Json.idx, Json.getD, Json.idxNat, hmain, htemp, hhum, hpres,
    hweather, hw0, hwcond, hwdesc, hwind, hspeed, hvis, hclouds, hallc, hsys, hcountry,
    hsunrise, hsunset, decField, Json.pyStr, Option.getD, ok_bind] at hx
  rw [bind_ok_iff] at hx
  obtain ⟨dtemp, hdtemp, hx⟩ := hx
  rw [bind_ok_iff] at hx
  obtain ⟨dhum, hdhum, hx⟩ := hx
  rw [bind_ok_iff] at hx
  obtain ⟨dpres, hdpres, hx⟩ := hx
  rw [bind_ok_iff] at hx
  obtain ⟨dwind, hdwind, hx⟩ := hx
  rw [bind_ok_iff] at hx
  obtain ⟨dvis, hdvis, hx⟩ := hx
  rw [bind_ok_iff] at hx
  obtain ⟨dcloud, hdcloud, hx⟩ := hx
  rw [bind_ok_iff] at hx
  obtain ⟨dsunrise, hdsunrise, hx⟩ := hx
  rw [bind_ok_iff] at hx
  obtain ⟨dsunset, hdsunset, hx⟩ := hx
  have hf := Except.ok.inj hx
  subst hf
  exact ⟨h1, ofString_ok hdtemp, ofString_ok hdhum, ofString_ok hdpres,
         ofString_ok hdwind, ofString_ok hdvis, ofString_ok hdcloud,
         ofString_ok hdsunrise, ofString_ok hdsunset⟩

/-- Witness for C5 at the sample payload: `"temp": 23.456` is stored as
the decimal literal `23.456`, and likewise for the other seven numeric
fields. -/
theorem claim_C5_witness :
    (processCity baseBehavior "test-key" "test-bucket" "Pretoria" "Pretoria" 0).2.1.ddbPuts =
      [itemOf sampleFields "Pretoria" sampleInstant.isoformat] ∧
    sampleFields.temperature = ⟨"23.456"⟩ ∧ sampleFields.humidity = ⟨"40"⟩ ∧
    sampleFields.pressure = ⟨"1015"⟩ ∧ sampleFields.wind_speed = ⟨"3.6"⟩ ∧
    sampleFields.visibility = ⟨"10000"⟩ ∧ sampleFields.cloudiness = ⟨"0"⟩ ∧
    sampleFields.sunrise = ⟨"1709611295"⟩ ∧ sampleFields.sunset = ⟨"1709656626"⟩ :=
  claim_C5_exactDecimals baseBehavior "test-key" "test-bucket" "Pretoria" "Pretoria" 0
    samplePayload
    [("temp", .num "23.456"), ("feels_like", .num "22.9"),
     ("pressure", .num "1015"), ("humidity", .num "40")]
    [("speed", .num "3.6"), ("deg", .num "220")]
    [("all", .num "0")]
    [("country", .str "ZA"), ("sunrise", .num "1709611295"), ("sunset", .num "1709656626")]
    [("id", .num "800"), ("main", .str "Clear"), ("description", .str "clear sky"),
     ("icon", .str "01d")]
    [.obj [("id", .num "800"), ("main", .str "Clear"), ("description", .str "clear sky"),
           ("icon", .str "01d")]]
    "23.456" "40" "1015" "3.6" "10000" "0" "1709611295" "1709656626"
    (.str "Clear") (.str "clear sky") (.str "ZA") sampleFields (.num "23.456")
    rfl rfl (fun _ => rfl) (fun _ => rfl) rfl rfl rfl rfl rfl rfl rfl rfl rfl rfl rfl
    rfl rfl rfl rfl rfl rfl rfl

/-- Claim C7: a payload lacking the optional `visibility` field but
containing all other expected fields is processed successfully, and the
stored row's visibility is the exact decimal `0`. -/
theorem claim_C7_visibilityDefault (b : Behavior) (apiKey bucketName q disp : String) (k : Nat)
    (fl mf wf cf sf w0f : List (String × Json)) (ws : List Json)
    (tempS humS presS windS cloudS sunriseS sunsetS : String)
    (wcond wdesc cval : Json) (ct : Json)
    (hh : b.http (buildUrl q apiKey) = .ok (.obj fl))
    (hct : currentTemp (.obj fl) = .ok ct)
    (hs3 : ∀ p, b.s3PutResult p = .ok ())
    (hdb : ∀ it, b.ddbPutResult it = .ok ())
    (hmain : lookupKey fl "main" = some (.obj mf))
    (htemp : lookupKey mf "temp" = some (.num tempS))
    (hhum : lookupKey mf "humidity" = some (.num humS))
    (hpres : lookupKey mf "pressure" = some (.num presS))
    (hweather : lookupKey fl "weather" = some (.arr ws))
    (hw0 : ws.get? 0 = some (.obj w0f))
    (hwcond : lookupKey w0f "main" = some wcond)
    (hwdesc : lookupKey w0f "description" = some wdesc)
    (hwind : lookupKey fl "wind" = some (.obj wf))
    (hspeed : lookupKey wf "speed" = some (.num windS))
    (hnovis : lookupKey fl "visibility" = none)
    (hclouds : lookupKey fl "clouds" = some (.obj cf))
    (hallc : lookupKey cf "all" = some (.num cloudS))
    (hsys : lookupKey fl "sys" = some (.obj sf))
    (hcountry : lookupKey sf "country" = some cval)
    (hsunrise : lookupKey sf "sunrise" = some (.num sunriseS))
    (hsunset : lookupKey sf "sunset" = some (.num sunsetS))
    (hv1 : isValidDecimal tempS = true) (hv2 : isValidDecimal humS = true)
    (hv3 : isValidDecimal presS = true) (hv4 : isValidDecimal windS = true)
    (hv5 : isValidDecimal cloudS = true) (hv6 : isValidDecimal sunriseS = true)
    (hv7 : isValidDecimal sunsetS = true) :
    extractFields (.obj fl) =
      .ok ⟨⟨tempS⟩, ⟨humS⟩, ⟨presS⟩, wcond, wdesc, ⟨windS⟩, ⟨"0"⟩, ⟨cloudS⟩,
           cval, ⟨sunriseS⟩, ⟨sunsetS⟩⟩ ∧
    processCity b apiKey bucketName q disp k =
      (.success disp (b.now k).isoformat ct,
       ⟨[buildUrl q apiKey],
        [rawPut bucketName disp (b.now k).isoformat (b.now (k + 1)).datePath
          (.obj (stampFields fl (b.now k).isoformat disp))],
        [itemOf ⟨⟨tempS⟩, ⟨humS⟩, ⟨presS⟩, wcond, wdesc, ⟨windS⟩, ⟨"0"⟩, ⟨cloudS⟩,
                 cval, ⟨sunriseS⟩, ⟨sunsetS⟩⟩ disp (b.now k).isoformat]⟩,
       k + 2) ∧
    (itemOf ⟨⟨tempS⟩, ⟨humS⟩, ⟨presS⟩, wcond, wdesc, ⟨windS⟩, ⟨"0"⟩, ⟨cloudS⟩,
             cval, ⟨sunriseS⟩, ⟨sunsetS⟩⟩ disp (b.now k).isoformat).visibility = ⟨"0"⟩ := by
  have hv0 : isValidDecimal "0" = true := rfl
  have hxf : extractFields (.obj fl) =
      .ok ⟨⟨tempS⟩, ⟨humS⟩, ⟨presS⟩, wcond, wdesc, ⟨windS⟩, ⟨"0"⟩, ⟨cloudS⟩,
           cval, ⟨sunriseS⟩, ⟨sunsetS⟩⟩ := by
    simp only [extractFields, Json.idx, Json.getD, Json.idxNat, hmain, htemp, hhum, hpres,
      hweather, hw0, hwcond, hwdesc, hwind, hspeed, hnovis, hclouds, hallc, hsys, hcountry,
      hsunrise, hsunset, decField, Json.pyStr, Option.getD, Decimal.ofString,
      hv0, hv1, hv2, hv3, hv4, hv5, hv6, hv7, if_true, ok_bind]
  exact ⟨hxf,
    processCity_ok b apiKey bucketName q disp fl _ ct k hh hxf hct hs3 hdb, rfl⟩

/-- Witness for C7 at the sample payload with `visibility` removed. -/
theorem claim_C7_witness :
    extractFields (.obj noVisibilityPayload) =
      .ok ⟨⟨"23.456"⟩, ⟨"40"⟩, ⟨"1015"⟩, .str "Clear", .str "clear sky", ⟨"3.6"⟩, ⟨"0"⟩,
           ⟨"0"⟩, .str "ZA", ⟨"1709611295"⟩, ⟨"1709656626"⟩⟩ ∧
    processCity noVisibilityBehavior "test-key" "test-bucket" "Durban" "Durban" 0 =
      (.success "Durban" sampleInstant.isoformat (.num "23.456"),
       ⟨[buildUrl "Durban" "test-key"],
        [rawPut "test-bucket" "Durban" sampleInstant.isoformat sampleInstant.datePath
          (.obj (stampFields noVisibilityPayload sampleInstant.isoformat "Durban"))],
        [itemOf ⟨⟨"23.456"⟩, ⟨"40"⟩, ⟨"1015"⟩, .str "Clear", .str "clear sky", ⟨"3.6"⟩,
                 ⟨"0"⟩, ⟨"0"⟩, .str "ZA", ⟨"1709611295"⟩, ⟨"1709656626"⟩⟩
          "Durban" sampleInstant.isoformat]⟩,
       2) ∧
    (itemOf ⟨⟨"23.456"⟩, ⟨"40"⟩, ⟨"1015"⟩, .str "Clear", .str "clear sky", ⟨"3.6"⟩,
             ⟨"0"⟩, ⟨"0"⟩, .str "ZA", ⟨"1709611295"⟩, ⟨"1709656626"⟩⟩
      "Durban" sampleInstant.isoformat).visibility = ⟨"0"⟩ :=
  claim_C7_visibilityDefault noVisibilityBehavior "test-key" "test-bucket" "Durban" "Durban" 0
    noVisibilityPayload
    [("temp", .num "23.456"), ("feels_like", .num "22.9"),
     ("pressure", .num "1015"), ("humidity", .num "40")]
    [("speed", .num "3.6"), ("deg", .num "220")]
    [("all", .num "0")]
    [("country", .str "ZA"), ("sunrise", .num "1709611295"), ("sunset", .num "1709656626")]
    [("id", .num "800"), ("main", .str "Clear"), ("description", .str "clear sky"),
     ("icon", .str "01d")]
    [.obj [("id", .num "800"), ("main", .str "Clear"), ("description", .str "clear sky"),
           ("icon", .str "01d")]]
    "23.456" "40" "1015" "3.6" "0" "1709611295" "1709656626"
    (.str "Clear") (.str "clear sky") (.str "ZA") (.num "23.456")
    rfl rfl (fun _ => rfl) (fun _ => rfl) rfl rfl rfl rfl rfl rfl rfl rfl rfl rfl rfl
    rfl rfl rfl rfl rfl rfl rfl rfl rfl rfl rfl rfl rfl

/-- Claim C4: when all four cities succeed, the response is status 200
with `processed_cities = 4`, `successful_cities = 4`,
`success_rate = "100.0%"` (successes/total × 100 to one decimal place,
computed by `formatRate`), the message, the current instant, and the
full ordered list of per-city results. -/
theorem claim_C4_fullSuccess (b : Behavior) (apiKey bucketName : String)
    (fl0 fl1 fl2 fl3 : List (String × Json)) (f0 f1 f2 f3 : Fields)
    (ct0 ct1 ct2 ct3 : Json)
    (hci : b.clientInit = .ok ())
    (hk : b.envApiKey = some apiKey) (hknz : apiKey ≠ "")
    (hb : b.envBucketName = some bucketName) (hbnz : bucketName ≠ "")
    (hh0 : b.http (buildUrl "Pretoria" apiKey) = .ok (.obj fl0))
    (hx0 : extractFields (.obj fl0) = .ok f0)
    (hct0 : currentTemp (.obj fl0) = .ok ct0)
    (hh1 : b.http (buildUrl "Cape%20Town" apiKey) = .ok (.obj fl1))
    (hx1 : extractFields (.obj fl1) = .ok f1)
    (hct1 : currentTemp (.obj fl1) = .ok ct1)
    (hh2 : b.http (buildUrl "Johannesburg" apiKey) = .ok (.obj fl2))
    (hx2 : extractFields (.obj fl2) = .ok f2)
    (hct2 : currentTemp (.obj fl2) = .ok ct2)
    (hh3 : b.http (buildUrl "Durban" apiKey) = .ok (.obj fl3))
    (hx3 : extractFields (.obj fl3) = .ok f3)
    (hct3 : currentTemp (.obj fl3) = .ok ct3)
    (hs3 : ∀ p, b.s3PutResult p = .ok ())
    (hdb : ∀ it, b.ddbPutResult it = .ok ()) :
    lambda_handler b =
      (⟨200, .obj [("message", .str "Weather data collection completed"),
                   ("processed_cities", .num "4"),
                   ("successful_cities", .num "4"),
                   ("success_rate", .str (formatRate 4 4 ++ "%")),
                   ("execution_time", .str (b.now 8).isoformat),
                   ("results", .arr ([
                      CityResult.success "Pretoria" (b.now 0).isoformat ct0,
                      CityResult.success "Cape Town" (b.now 2).isoformat ct1,
                      CityResult.success "Johannesburg" (b.now 4).isoformat ct2,
                      CityResult.success "Durban" (b.now 6).isoformat ct3].map
                        CityResult.toJson))]⟩,
       ⟨[buildUrl "Pretoria" apiKey, buildUrl "Cape%20Town" apiKey,
         buildUrl "Johannesburg" apiKey, buildUrl "Durban" apiKey],
        [rawPut bucketName "Pretoria" (b.now 0).isoformat (b.now 1).datePath
           (.obj (stampFields fl0 (b.now 0).isoformat "Pretoria")),
         rawPut bucketName "Cape Town" (b.now 2).isoformat (b.now 3).datePath
           (.obj (stampFields fl1 (b.now 2).isoformat "Cape Town")),
         rawPut bucketName "Johannesburg" (b.now 4).isoformat (b.now 5).datePath
           (.obj (stampFields fl2 (b.now 4).isoformat "Johannesburg")),
         rawPut bucketName "Durban" (b.now 6).isoformat (b.now 7).datePath
           (.obj (stampFields fl3 (b.now 6).isoformat "Durban"))],
        [itemOf f0 "Pretoria" (b.now 0).isoformat,
         itemOf f1 "Cape Town" (b.now 2).isoformat,
         itemOf f2 "Johannesburg" (b.now 4).isoformat,
         itemOf f3 "Durban" (b.now 6).isoformat]⟩) ∧
    formatRate 4 4 = "100.0" := by
  have e0 := processCity_ok b apiKey bucketName "Pretoria" "Pretoria" fl0 f0 ct0 0
    hh0 hx0 hct0 hs3 hdb
  have e1 := processCity_ok b apiKey bucketName "Cape%20Town" "Cape Town" fl1 f1 ct1 2
    hh1 hx1 hct1 hs3 hdb
  have e2 := processCity_ok b apiKey bucketName "Johannesburg" "Johannesburg" fl2 f2 ct2 4
    hh2 hx2 hct2 hs3 hdb
  have e3 := processCity_ok b apiKey bucketName "Durban" "Durban" fl3 f3 ct3 6
    hh3 hx3 hct3 hs3 hdb
  have hrun := runCities_four b apiKey bucketName 0 _ _ _ _ _ _ _ _ _ _ _ _ e0 e1 e2 e3
  refine ⟨?_, rfl⟩
  rw [lambda_handler_main b apiKey bucketName hci hk hknz hb hbnz, hrun]
  simp [successCount, CityResult.statusStr, Trace.append]
  try rfl

/-- Witness for C4 at the all-success behavior. -/
theorem claim_C4_witness :
    (lambda_handler baseBehavior =
      (⟨200, .obj [("message", .str "Weather data collection completed"),
                   ("processed_cities", .num "4"),
                   ("successful_cities", .num "4"),
                   ("success_rate", .str (formatRate 4 4 ++ "%")),
                   ("execution_time", .str (baseBehavior.now 8).isoformat),
                   ("results", .arr ([
                      CityResult.success "Pretoria" (baseBehavior.now 0).isoformat (.num "23.456"),
                      CityResult.success "Cape Town" (baseBehavior.now 2).isoformat (.num "23.456"),
                      CityResult.success "Johannesburg" (baseBehavior.now 4).isoformat (.num "23.456"),
                      CityResult.success "Durban" (baseBehavior.now 6).isoformat (.num "23.456")].map
                        CityResult.toJson))]⟩,
       ⟨[buildUrl "Pretoria" "test-key", buildUrl "Cape%20Town" "test-key",
         buildUrl "Johannesburg" "test-key", buildUrl "Durban" "test-key"],
        [rawPut "test-bucket" "Pretoria" (baseBehavior.now 0).isoformat (baseBehavior.now 1).datePath
           (.obj (stampFields samplePayload (baseBehavior.now 0).isoformat "Pretoria")),
         rawPut "test-bucket" "Cape Town" (baseBehavior.now 2).isoformat (baseBehavior.now 3).datePath
           (.obj (stampFields samplePayload (baseBehavior.now 2).isoformat "Cape Town")),
         rawPut "test-bucket" "Johannesburg" (baseBehavior.now 4).isoformat (baseBehavior.now 5).datePath
           (.obj (stampFields samplePayload (baseBehavior.now 4).isoformat "Johannesburg")),
         rawPut "test-bucket" "Durban" (baseBehavior.now 6).isoformat (baseBehavior.now 7).datePath
           (.obj (stampFields samplePayload (baseBehavior.now 6).isoformat "Durban"))],
        [itemOf sampleFields "Pretoria" (baseBehavior.now 0).isoformat,
         itemOf sampleFields "Cape Town" (baseBehavior.now 2).isoformat,
         itemOf sampleFields "Johannesburg" (baseBehavior.now 4).isoformat,
         itemOf sampleFields "Durban" (baseBehavior.now 6).isoformat]⟩) ∧
     formatRate 4 4 = "100.0") :=
  claim_C4_fullSuccess baseBehavior "test-key" "test-bucket"
    samplePayload samplePayload samplePayload samplePayload
    sampleFields sampleFields sampleFields sampleFields
    (.num "23.456") (.num "23.456") (.num "23.456") (.num "23.456")
    rfl rfl (by decide) rfl (by decide)
    rfl rfl rfl rfl rfl rfl rfl rfl rfl rfl rfl rfl
    (fun _ => rfl) (fun _ => rfl)

/-- Claim C1: with valid configuration, when exactly one of the four
cities' HTTP calls fails, its failure is caught per-city and recorded as
an error result with the failure's message, the other three cities are
still processed to success results, the status code is still 200, and
the reported success rate is "75.0%". -/
theorem claim_C1_perCityIsolation (b : Behavior) (apiKey bucketName : String)
    (j : Fin 4) (pl : Fin 4 → List (String × Json)) (f : Fin 4 → Fields)
    (ct : Fin 4 → Json) (emsg : String)
    (hci : b.clientInit = .ok ())
    (hk : b.envApiKey = some apiKey) (hknz : apiKey ≠ "")
    (hb : b.envBucketName = some bucketName) (hbnz : bucketName ≠ "")
    (hfail : b.http (buildUrl (queryAt j) apiKey) = .error emsg)
    (hok : ∀ i : Fin 4, i ≠ j →
      b.http (buildUrl (queryAt i) apiKey) = .ok (.obj (pl i)) ∧
      extractFields (.obj (pl i)) = .ok (f i) ∧
      currentTemp (.obj (pl i)) = .ok (ct i))
    (hs3 : ∀ p, b.s3PutResult p = .ok ())
    (hdb : ∀ it, b.ddbPutResult it = .ok ()) :
    (lambda_handler b).1.statusCode = 200 ∧
    (lambda_handler b).1.bodyField "success_rate" = some (.str "75.0%") ∧
    (lambda_handler b).1.bodyField "successful_cities" = some (.num "3") ∧
    (runCities b apiKey bucketName (cityQueries.zip cityDisplay) 0).1.length = 4 ∧
    successCount (runCities b apiKey bucketName (cityQueries.zip cityDisplay) 0).1 = 3 ∧
    (runCities b apiKey bucketName (cityQueries.zip cityDisplay) 0).1.get? j.val =
      some (.error (displayAt j) emsg) ∧
    (∀ i : Fin 4, i ≠ j →
      ((runCities b apiKey bucketName (cityQueries.zip cityDisplay) 0).1.get? i.val).map
        CityResult.statusStr = some "success") := by
  fin_cases j
  · obtain ⟨hh1, hx1, hct1⟩ := hok 1 (by decide)
    obtain ⟨hh2, hx2, hct2⟩ := hok 2 (by decide)
    obtain ⟨hh3, hx3, hct3⟩ := hok 3 (by decide)
    have hfail' : b.http (buildUrl "Pretoria" apiKey) = .error emsg := hfail
    have hh1' : b.http (buildUrl "Cape%20Town" apiKey) = .ok (.obj (pl 1)) := hh1
    have hh2' : b.http (buildUrl "Johannesburg" apiKey) = .ok (.obj (pl 2)) := hh2
    have hh3' : b.http (buildUrl "Durban" apiKey) = .ok (.obj (pl 3)) := hh3
    have e0 := processCity_httpError b apiKey bucketName "Pretoria" "Pretoria" emsg 0 hfail'
    have e1 := processCity_ok b apiKey bucketName "Cape%20Town" "Cape Town"
      (pl 1) (f 1) (ct 1) 0 hh1' hx1 hct1 hs3 hdb
    have e2 := processCity_ok b apiKey bucketName "Johannesburg" "Johannesburg"
      (pl 2) (f 2) (ct 2) 2 hh2' hx2 hct2 hs3 hdb
    have e3 := processCity_ok b apiKey bucketName "Durban" "Durban"
      (pl 3) (f 3) (ct 3) 4 hh3' hx3 hct3 hs3 hdb
    have hrun := runCities_four b apiKey bucketName 0 _ _ _ _ _ _ _ _ _ _ _ _ e0 e1 e2 e3
    have hrs : (runCities b apiKey bucketName (cityQueries.zip cityDisplay) 0).1 =
        [CityResult.error "Pretoria" emsg,
         CityResult.success "Cape Town" (b.now 0).isoformat (ct 1),
         CityResult.success "Johannesburg" (b.now 2).isoformat (ct 2),
         CityResult.success "Durban" (b.now 4).isoformat (ct 3)] := by
      rw [hrun]
    have hsc : successCount
        [CityResult.error "Pretoria" emsg,
         CityResult.success "Cape Town" (b.now 0).isoformat (ct 1),
         CityResult.success "Johannesburg" (b.now 2).isoformat (ct 2),
         CityResult.success "Durban" (b.now 4).isoformat (ct 3)] = 3 := rfl
    have hlen : List.length
        [CityResult.error "Pretoria" emsg,
         CityResult.success "Cape Town" (b.now 0).isoformat (ct 1),
         CityResult.success "Johannesburg" (b.now 2).isoformat (ct 2),
         CityResult.success "Durban" (b.now 4).isoformat (ct 3)] = 4 := rfl
    obtain ⟨g1, gmsg, gproc, gsucc, grate, gtime, gres⟩ :=
      lambda_handler_fields b apiKey bucketName hci hk hknz hb hbnz _ _ _ hrun
    refine ⟨g1, ?_, ?_, ?_, ?_, ?_, ?_⟩
    · rw [grate, hsc, hlen]
      rfl
    · rw [gsucc, hsc]
      rfl
    · rw [hrs]
      exact hlen
    · rw [hrs]
      exact hsc
    · rw [hrs]
      rfl
    · intro i hi
      fin_cases i
      · exact absurd rfl hi
      · rw [hrs]
        rfl
      · rw [hrs]
        rfl
      · rw [hrs]
        rfl
  · obtain ⟨hh0, hx0, hct0⟩ := hok 0 (by decide)
    obtain ⟨hh2, hx2, hct2⟩ := hok 2 (by decide)
    obtain ⟨hh3, hx3, hct3⟩ := hok 3 (by decide)
    have hfail' : b.http (buildUrl "Cape%20Town" apiKey) = .error emsg := hfail
    have hh0' : b.http (buildUrl "Pretoria" apiKey) = .ok (.obj (pl 0)) := hh0
    have hh2' : b.http (buildUrl "Johannesburg" apiKey) = .ok (.obj (pl 2)) := hh2
    have hh3' : b.http (buildUrl "Durban" apiKey) = .ok (.obj (pl 3)) := hh3
    have e0 := processCity_ok b apiKey bucketName "Pretoria" "Pretoria"
      (pl 0) (f 0) (ct 0) 0 hh0' hx0 hct0 hs3 hdb
    have e1 := processCity_httpError b apiKey bucketName "Cape%20Town" "Cape Town" emsg 2 hfail'
    have e2 := processCity_ok b apiKey bucketName "Johannesburg" "Johannesburg"
      (pl 2) (f 2) (ct 2) 2 hh2' hx2 hct2 hs3 hdb
    have e3 := processCity_ok b apiKey bucketName "Durban" "Durban"
      (pl 3) (f 3) (ct 3) 4 hh3' hx3 hct3 hs3 hdb
    have hrun := runCities_four b apiKey bucketName 0 _ _ _ _ _ _ _ _ _ _ _ _ e0 e1 e2 e3
    have hrs : (runCities b apiKey bucketName (cityQueries.zip cityDisplay) 0).1 =
        [CityResult.success "Pretoria" (b.now 0).isoformat (ct 0),
         CityResult.error "Cape Town" emsg,
         CityResult.success "Johannesburg" (b.now 2).isoformat (ct 2),
         CityResult.success "Durban" (b.now 4).isoformat (ct 3)] := by
      rw [hrun]
    have hsc : successCount
        [CityResult.success "Pretoria" (b.now 0).isoformat (ct 0),
         CityResult.error "Cape Town" emsg,
         CityResult.success "Johannesburg" (b.now 2).isoformat (ct 2),
         CityResult.success "Durban" (b.now 4).isoformat (ct 3)] = 3 := rfl
    have hlen : List.length
        [CityResult.success "Pretoria" (b.now 0).isoformat (ct 0),
         CityResult.error "Cape Town" emsg,
         CityResult.success "Johannesburg" (b.now 2).isoformat (ct 2),
         CityResult.success "Durban" (b.now 4).isoformat (ct 3)] = 4 := rfl
    obtain ⟨g1, gmsg, gproc, gsucc, grate, gtime, gres⟩ :=
      lambda_handler_fields b apiKey bucketName hci hk hknz hb hbnz _ _ _ hrun
    refine ⟨g1, ?_, ?_, ?_, ?_, ?_, ?_⟩
    · rw [grate, hsc, hlen]
      rfl
    · rw [gsucc, hsc]
      rfl
    · rw [hrs]
      exact hlen
    · rw [hrs]
      exact hsc
    · rw [hrs]
      rfl
    · intro i hi
      fin_cases i
      · rw [hrs]
        rfl
      · exact absurd rfl hi
      · rw [hrs]
        rfl
      · rw [hrs]
        rfl
  · obtain ⟨hh0, hx0, hct0⟩ := hok 0 (by decide)
    obtain ⟨hh1, hx1, hct1⟩ := hok 1 (by decide)
    obtain ⟨hh3, hx3, hct3⟩ := hok 3 (by decide)
    have hfail' : b.http (buildUrl "Johannesburg" apiKey) = .error emsg := hfail
    have hh0' : b.http (buildUrl "Pretoria" apiKey) = .ok (.obj (pl 0)) := hh0
    have hh1' : b.http (buildUrl "Cape%20Town" apiKey) = .ok (.obj (pl 1)) := hh1
    have hh3' : b.http (buildUrl "Durban" apiKey) = .ok (.obj (pl 3)) := hh3
    have e0 := processCity_ok b apiKey bucketName "Pretoria" "Pretoria"
      (pl 0) (f 0) (ct 0) 0 hh0' hx0 hct0 hs3 hdb
    have e1 := processCity_ok b apiKey bucketName "Cape%20Town" "Cape Town"
      (pl 1) (f 1) (ct 1) 2 hh1' hx1 hct1 hs3 hdb
    have e2 := processCity_httpError b apiKey bucketName "Johannesburg" "Johannesburg" emsg 4 hfail'
    have e3 := processCity_ok b apiKey bucketName "Durban" "Durban"
      (pl 3) (f 3) (ct 3) 4 hh3' hx3 hct3 hs3 hdb
    have hrun := runCities_four b apiKey bucketName 0 _ _ _ _ _ _ _ _ _ _ _ _ e0 e1 e2 e3
    have hrs : (runCities b apiKey bucketName (cityQueries.zip cityDisplay) 0).1 =
        [CityResult.success "Pretoria" (b.now 0).isoformat (ct 0),
         CityResult.success "Cape Town" (b.now 2).isoformat (ct 1),
         CityResult.error "Johannesburg" emsg,
         CityResult.success "Durban" (b.now 4).isoformat (ct 3)] := by
      rw [hrun]
    have hsc : successCount
        [CityResult.success "Pretoria" (b.now 0).isoformat (ct 0),
         CityResult.success "Cape Town" (b.now 2).isoformat (ct 1),
         CityResult.error "Johannesburg" emsg,
         CityResult.success "Durban" (b.now 4).isoformat (ct 3)] = 3 := rfl
    have hlen : List.length
        [CityResult.success "Pretoria" (b.now 0).isoformat (ct 0),
         CityResult.success "Cape Town" (b.now 2).isoformat (ct 1),
         CityResult.error "Johannesburg" emsg,
         CityResult.success "Durban" (b.now 4).isoformat (ct 3)] = 4 := rfl
    obtain ⟨g1, gmsg, gproc, gsucc, grate, gtime, gres⟩ :=
      lambda_handler_fields b apiKey bucketName hci hk hknz hb hbnz _ _ _ hrun
    refine ⟨g1, ?_, ?_, ?_, ?_, ?_, ?_⟩
    · rw [grate, hsc, hlen]
      rfl
    · rw [gsucc, hsc]
      rfl
    · rw [hrs]
      exact hlen
    · rw [hrs]
      exact hsc
    · rw [hrs]
      rfl
    · intro i hi
      fin_cases i
      · rw [hrs]
        rfl
      · rw [hrs]
        rfl
      · exact absurd rfl hi
      · rw [hrs]
        rfl
  · obtain ⟨hh0, hx0, hct0⟩ := hok 0 (by decide)
    obtain ⟨hh1, hx1, hct1⟩ := hok 1 (by decide)
    obtain ⟨hh2, hx2, hct2⟩ := hok 2 (by decide)
    have hfail' : b.http (buildUrl "Durban" apiKey) = .error emsg := hfail
    have hh0' : b.http (buildUrl "Pretoria" apiKey) = .ok (.obj (pl 0)) := hh0
    have hh1' : b.http (buildUrl "Cape%20Town" apiKey) = .ok (.obj (pl 1)) := hh1
    have hh2' : b.http (buildUrl "Johannesburg" apiKey) = .ok (.obj (pl 2)) := hh2
    have e0 := processCity_ok b apiKey bucketName "Pretoria" "Pretoria"
      (pl 0) (f 0) (ct 0) 0 hh0' hx0 hct0 hs3 hdb
    have e1 := processCity_ok b apiKey bucketName "Cape%20Town" "Cape Town"
      (pl 1) (f 1) (ct 1) 2 hh1' hx1 hct1 hs3 hdb
    have e2 := processCity_ok b apiKey bucketName "Johannesburg" "Johannesburg"
      (pl 2) (f 2) (ct 2) 4 hh2' hx2 hct2 hs3 hdb
    have e3 := processCity_httpError b apiKey bucketName "Durban" "Durban" emsg 6 hfail'
    have hrun := runCities_four b apiKey bucketName 0 _ _ _ _ _ _ _ _ _ _ _ _ e0 e1 e2 e3
    have hrs : (runCities b apiKey bucketName (cityQueries.zip cityDisplay) 0).1 =
        [CityResult.success "Pretoria" (b.now 0).isoformat (ct 0),
         CityResult.success "Cape Town" (b.now 2).isoformat (ct 1),
         CityResult.success "Johannesburg" (b.now 4).isoformat (ct 2),
         CityResult.error "Durban" emsg] := by
      rw [hrun]
    have hsc : successCount
        [CityResult.success "Pretoria" (b.now 0).isoformat (ct 0),
         CityResult.success "Cape Town" (b.now 2).isoformat (ct 1),
         CityResult.success "Johannesburg" (b.now 4).isoformat (ct 2),
         CityResult.error "Durban" emsg] = 3 := rfl
    have hlen : List.length
        [CityResult.success "Pretoria" (b.now 0).isoformat (ct 0),
         CityResult.success "Cape Town" (b.now 2).isoformat (ct 1),
         CityResult.success "Johannesburg" (b.now 4).isoformat (ct 2),
         CityResult.error "Durban" emsg] = 4 := rfl
    obtain ⟨g1, gmsg, gproc, gsucc, grate, gtime, gres⟩ :=
      lambda_handler_fields b apiKey bucketName hci hk hknz hb hbnz _ _ _ hrun
    refine ⟨g1, ?_, ?_, ?_, ?_, ?_, ?_⟩
    · rw [grate, hsc, hlen]
      rfl
    · rw [gsucc, hsc]
      rfl
    · rw [hrs]
      exact hlen
    · rw [hrs]
      exact hsc
    · rw [hrs]
      rfl
    · intro i hi
      fin_cases i
      · rw [hrs]
        rfl
      · rw [hrs]
        rfl
      · rw [hrs]
        rfl
      · exact absurd rfl hi

/-- Witness for C1: the behavior where only Cape Town's HTTP call fails
gives three successes, one error for Cape Town, status 200 and success
rate "75.0%". -/
theorem claim_C1_witness :
    (lambda_handler oneFailBehavior).1.statusCode = 200 ∧
    (lambda_handler oneFailBehavior).1.bodyField "success_rate" = some (.str "75.0%") ∧
    (lambda_handler oneFailBehavior).1.bodyField "successful_cities" = some (.num "3") ∧
    (runCities oneFailBehavior "test-key" "test-bucket"
      (cityQueries.zip cityDisplay) 0).1.length = 4 ∧
    successCount (runCities oneFailBehavior "test-key" "test-bucket"
      (cityQueries.zip cityDisplay) 0).1 = 3 ∧
    (runCities oneFailBehavior "test-key" "test-bucket"
      (cityQueries.zip cityDisplay) 0).1.get? 1 =
      some (.error "Cape Town" "HTTP Error 500: Internal Server Error") := by
  obtain ⟨h1, h2, h3, h4, h5, h6, h7⟩ :=
    claim_C1_perCityIsolation oneFailBehavior "test-key" "test-bucket" 1
      (fun _ => samplePayload) (fun _ => sampleFields) (fun _ => .num "23.456")
      "HTTP Error 500: Internal Server Error"
      rfl rfl (by decide) rfl (by decide)
      rfl
      (fun i hi => by
        fin_cases i
        · exact ⟨rfl, rfl, rfl⟩
        · exact absurd rfl hi
        · exact ⟨rfl, rfl, rfl⟩
        · exact ⟨rfl, rfl, rfl⟩)
      (fun _ => rfl) (fun _ => rfl)
  exact ⟨h1, h2, h3, h4, h5, h6⟩

end WeatherPipeline
